import Mathlib

/-
Verification of the Recognition Event Controller of CameraTimeCard.

The definitions below are a shallow embedding of the Python sources
`facial_recognition_advanced.py` (class AdvancedFacialRecognitionTimeCard)
and `facial_recognition_timecard.py` (class FacialRecognitionTimeCard).
Timestamps are modelled as integer seconds; face distances are modelled as
integers scaled by 1000 (the default tolerance 0.6 becomes 600).  Python
dictionaries become association lists; `hasattr(config, X)` probing becomes
`Option` fields of the `Config` structure.  External calls (the matcher,
the HTTP store, the webhook) are recorded as events or supplied as oracle
parameters.
-/

namespace CameraTimeCard

/-- Association-list lookup, modelling Python `d[k]` / `k in d`. -/
def lookupA {α : Type} (k : String) : List (String × α) → Option α
  | [] => none
  | (k', v) :: rest => if k' = k then some v else lookupA k rest

/-- Association-list update, modelling Python `d[k] = v` (one binding per key). -/
def insertA {α : Type} (k : String) (v : α) (l : List (String × α)) :
    List (String × α) :=
  (k, v) :: l.filter (fun p => p.1 ≠ k)

/-- Association-list deletion, modelling Python `del d[k]`. -/
def eraseA {α : Type} (k : String) (l : List (String × α)) : List (String × α) :=
  l.filter (fun p => p.1 ≠ k)

/-- The configuration fields consulted by the controller
(`advanced_config.py` defaults; `Option` encodes absent / falsy attributes
probed with `hasattr`). -/
structure Config where
  RECOGNITION_COOLDOWN : Int := 10
  MAX_FAILED_ATTEMPTS : Option Nat := some 10
  LOCKOUT_TIME : Option Int := some 300
  WORK_START_TIME : Option Int := some 25200
  WORK_END_TIME : Option Int := some 68400
  ALLOW_AFTER_HOURS : Bool := true
  MAX_CACHE_SIZE : Nat := 1000
  FACE_RECOGNITION_TOLERANCE : Int := 600
  NOTIFY_ON_FIRST_ENTRY : Bool := false
  COLOR_RECOGNIZED : Nat × Nat × Nat := (0, 255, 0)
  COLOR_UNKNOWN : Nat × Nat × Nat := (0, 0, 255)
  COLOR_COOLDOWN : Nat × Nat × Nat := (0, 255, 255)

/-- A cache entry list: fingerprint → (name, employee id);
`none` models `encoding_cache = None` (caching disabled). -/
abbrev Cache := Option (List (Int × String × String))

/-- The mutable state of `AdvancedFacialRecognitionTimeCard`
(`self.last_recognition`, `self.failed_attempts`, `self.locked_until`,
`self.encoding_cache`). -/
structure SysState where
  last_recognition : List (String × Int) := []
  failed_attempts : List (String × List Int) := []
  locked_until : List (String × Int) := []
  encoding_cache : Cache := some []
deriving DecidableEq

/-- The initial state built by `__init__` with `CACHE_ENCODINGS = True`. -/
def initState : SysState := {}

/-- `is_employee_locked` (lines 212-223): returns whether the id is locked;
when `now` is strictly past the deadline it deletes the lockout entry and
the id's failure history and reports unlocked. -/
def is_employee_locked (st : SysState) (now : Int) (employee_id : String) :
    Bool × SysState :=
  match lookupA employee_id st.locked_until with
  | none => (false, st)
  | some unlockAt =>
    if unlockAt < now then
      (false, { st with
        locked_until := eraseA employee_id st.locked_until,
        failed_attempts := eraseA employee_id st.failed_attempts })
    else (true, st)

/-- `can_register_again` (lines 225-236): false while locked; otherwise true
iff no cooldown entry exists or `now - lastAcceptedAt >= RECOGNITION_COOLDOWN`. -/
def can_register_again (cfg : Config) (st : SysState) (now : Int)
    (employee_id : String) : Bool × SysState :=
  let locked := is_employee_locked st now employee_id
  if locked.1 then (false, locked.2)
  else
    match lookupA employee_id locked.2.last_recognition with
    | some t => (decide (cfg.RECOGNITION_COOLDOWN ≤ now - t), locked.2)
    | none => (true, locked.2)

/-- The assignment `self.last_recognition[employee_id] = current_time`
(line 401), the `markAccepted` operation of the CooldownLedger. -/
def markAccepted (st : SysState) (employee_id : String) (t : Int) : SysState :=
  { st with last_recognition := insertA employee_id t st.last_recognition }

/-- The failure window stored by `register_failed_attempt` (lines 246-256):
the previous "unknown" window with `now` appended, keeping only entries
strictly newer than `now` minus one hour. -/
def prunedWindow (st : SysState) (now : Int) : List Int :=
  (((lookupA "unknown" st.failed_attempts).getD []) ++ [now]).filter
    (fun t => now - 3600 < t)

/-- `register_failed_attempt` (lines 238-268): stores the pruned window and,
when it reaches `MAX_FAILED_ATTEMPTS` and `LOCKOUT_TIME` is configured, sets
the lockout deadline to `now + LOCKOUT_TIME`.  A missing
`MAX_FAILED_ATTEMPTS` makes the call a no-op. -/
def register_failed_attempt (cfg : Config) (st : SysState) (now : Int) :
    SysState :=
  match cfg.MAX_FAILED_ATTEMPTS with
  | none => st
  | some maxAttempts =>
    let window := prunedWindow st now
    let st1 := { st with failed_attempts := insertA "unknown" window st.failed_attempts }
    if maxAttempts ≤ window.length then
      match cfg.LOCKOUT_TIME with
      | some lockTime =>
        { st1 with locked_until := insertA "unknown" (now + lockTime) st1.locked_until }
      | none => st1
    else st1

theorem lookupA_insertA_self {α : Type} (k : String) (v : α)
    (l : List (String × α)) : lookupA k (insertA k v l) = some v := by
  simp [lookupA, insertA]

theorem lookupA_eq_of_filter_ne {α : Type} (k : String) (l : List (String × α)) :
    lookupA k (l.filter (fun p => p.1 ≠ k)) = none := by
  induction l with
  | nil => simp [lookupA]
  | cons hd tl ih =>
    by_cases h : hd.1 = k
    · simpa [List.filter, h] using ih
    · simp only [List.filter, h]
      simpa [lookupA, h] using ih

theorem lookupA_filter_ne {α : Type} (k k' : String) (h : k' ≠ k)
    (l : List (String × α)) :
    lookupA k (l.filter (fun p => p.1 ≠ k')) = lookupA k l := by
  induction l with
  | nil => rfl
  | cons hd tl ih =>
    simp only [ne_eq, decide_not] at ih ⊢
    by_cases hk' : hd.1 = k'
    · have hk : ¬ hd.1 = k := fun hc => h (by rw [← hk', hc])
      simp [List.filter_cons, lookupA, hk', hk, h, ih]
    · simp [List.filter_cons, lookupA, hk', ih]

theorem lookupA_insertA_ne {α : Type} {k k' : String} (h : k' ≠ k) (v : α)
    (l : List (String × α)) : lookupA k (insertA k' v l) = lookupA k l := by
  simp only [insertA, lookupA, if_neg h]
  exact lookupA_filter_ne k k' h l

theorem lookupA_eraseA_self {α : Type} (k : String) (l : List (String × α)) :
    lookupA k (eraseA k l) = none :=
  lookupA_eq_of_filter_ne k l

/-- C1: for every identity with no lockout entry, `can_register_again` is
true when no cooldown entry exists; after `markAccepted(I, t0)` it is false
for all `t0 ≤ t < t0 + RECOGNITION_COOLDOWN` and true for all
`t ≥ t0 + RECOGNITION_COOLDOWN`, so the boundary instant is allowed. -/
theorem C1_cooldown_window (cfg : Config) (st : SysState) (eid : String)
    (hlock : lookupA eid st.locked_until = none) :
    (∀ now : Int, lookupA eid st.last_recognition = none →
        (can_register_again cfg st now eid).1 = true) ∧
    (∀ t0 t : Int, t0 ≤ t → t < t0 + cfg.RECOGNITION_COOLDOWN →
        (can_register_again cfg (markAccepted st eid t0) t eid).1 = false) ∧
    (∀ t0 t : Int, t0 + cfg.RECOGNITION_COOLDOWN ≤ t →
        (can_register_again cfg (markAccepted st eid t0) t eid).1 = true) := by
  refine ⟨?_, ?_, ?_⟩
  · intro now hnone
    simp [can_register_again, is_employee_locked, hlock, hnone]
  · intro t0 t _ hlt
    simp [can_register_again, is_employee_locked, markAccepted, hlock,
      lookupA_insertA_self]
    omega
  · intro t0 t hge
    simp [can_register_again, is_employee_locked, markAccepted, hlock,
      lookupA_insertA_self]
    omega

/-- Witness for C1 at cooldown 10, identity "E1", t0 = 100. -/
theorem C1_cooldown_window_witness :
    (can_register_again {} initState 0 "E1").1 = true ∧
    (can_register_again {} (markAccepted initState "E1" 100) 109 "E1").1 = false ∧
    (can_register_again {} (markAccepted initState "E1" 100) 110 "E1").1 = true := by
  have h := C1_cooldown_window {} initState "E1" (by decide)
  exact ⟨h.1 0 (by decide), h.2.1 100 109 (by decide) (by decide),
    h.2.2 100 110 (by decide)⟩

/-- A configuration tripping the lockout after 2 failures, 300 s lockout. -/
def cfgStrict : Config := { MAX_FAILED_ATTEMPTS := some 2, LOCKOUT_TIME := some 300 }

/-- State after one failure at t = 0. -/
def stFail1 : SysState := register_failed_attempt cfgStrict initState 0

/-- State after failures at t = 0 and t = 1: the lockout trips with
deadline 301. -/
def stFail2 : SysState := register_failed_attempt cfgStrict stFail1 1

/-- Helper: `register_failed_attempt` always stores the pruned window under
"unknown" when `MAX_FAILED_ATTEMPTS` is configured. -/
theorem register_failed_attempt_window (cfg : Config) (m : Nat) (st : SysState)
    (now : Int) (hm : cfg.MAX_FAILED_ATTEMPTS = some m) :
    (register_failed_attempt cfg st now).failed_attempts
      = insertA "unknown" (prunedWindow st now) st.failed_attempts := by
  cases hl : cfg.LOCKOUT_TIME <;>
    simp only [register_failed_attempt, hm, hl] <;> split <;> rfl

/-- Helper: the lockout branch of `register_failed_attempt`. -/
theorem register_failed_attempt_locked (cfg : Config) (m : Nat) (lt : Int)
    (st : SysState) (now : Int) (hm : cfg.MAX_FAILED_ATTEMPTS = some m)
    (hl : cfg.LOCKOUT_TIME = some lt) :
    (register_failed_attempt cfg st now).locked_until
      = if m ≤ (prunedWindow st now).length then
          insertA "unknown" (now + lt) st.locked_until
        else st.locked_until := by
  simp only [register_failed_attempt, hm, hl]
  split <;> rfl

/-- C2 counterexample: with `MAX_FAILED_ATTEMPTS = 2`, `LOCKOUT_TIME = 300`,
failures at t = 0 and t = 1 trip the lockout with deadline 301; a further
failure at t = 2, while the lockout is still active (2 ≤ 301), moves the
deadline to 302 - the unlockAt timestamp does not stay at its tripping
value, contradicting the claim. -/
theorem C2_counterexample :
    lookupA "unknown" stFail2.locked_until = some 301 ∧
    (2 : Int) ≤ 301 ∧
    lookupA "unknown" (register_failed_attempt cfgStrict stFail2 2).locked_until
      = some 302 ∧
    lookupA "unknown" (register_failed_attempt cfgStrict stFail2 2).locked_until
      ≠ some 301 := by
  decide

/-- C2 (amended): a failure recorded while the scope is locked re-evaluates
the threshold on the pruned window; whenever the pruned window still reaches
`MAX_FAILED_ATTEMPTS`, the deadline is reset to `now + LOCKOUT_TIME` (so
repeated failures extend the lockout); the deadline is left unchanged only
when pruning brings the window below the threshold. -/
theorem C2_amended_lockout_reset (cfg : Config) (m : Nat) (lt : Int)
    (st : SysState) (now : Int)
    (hm : cfg.MAX_FAILED_ATTEMPTS = some m)
    (hl : cfg.LOCKOUT_TIME = some lt) :
    (m ≤ (prunedWindow st now).length →
      lookupA "unknown" (register_failed_attempt cfg st now).locked_until
        = some (now + lt)) ∧
    ((prunedWindow st now).length < m →
      (register_failed_attempt cfg st now).locked_until = st.locked_until) := by
  constructor
  · intro hlen
    rw [register_failed_attempt_locked cfg m lt st now hm hl, if_pos hlen,
      lookupA_insertA_self]
  · intro hlen
    rw [register_failed_attempt_locked cfg m lt st now hm hl,
      if_neg (Nat.not_le.mpr hlen)]

/-- Witness for C2 (amended) at the concrete locked state `stFail2`. -/
theorem C2_amended_lockout_reset_witness :
    2 ≤ (prunedWindow stFail2 2).length ∧
    lookupA "unknown" (register_failed_attempt cfgStrict stFail2 2).locked_until
      = some 302 :=
  ⟨by decide,
    (C2_amended_lockout_reset cfgStrict 2 300 stFail2 2 rfl rfl).1 (by decide)⟩

/-- C4 counterexample: with the lockout deadline 301 from `stFail2`, a
`register_failed_attempt` call at t = 400 (past the deadline) neither
deletes the lockout entry nor clears the failure history: the deadline is
reset to 700 and the window keeps the pre-lockout failures 0 and 1. -/
theorem C4_counterexample :
    lookupA "unknown" stFail2.locked_until = some 301 ∧ (301 : Int) < 400 ∧
    lookupA "unknown" (register_failed_attempt cfgStrict stFail2 400).locked_until
      = some 700 ∧
    lookupA "unknown" (register_failed_attempt cfgStrict stFail2 400).failed_attempts
      = some [0, 1, 400] := by
  decide

/-- C4 (amended): lazy expiry is performed by `is_employee_locked` alone:
when `now` is past the deadline it reports unlocked, deletes the lockout
entry and the scope's failure history, and a subsequent `is_employee_locked`
on the resulting state still reports unlocked.  `register_failed_attempt`
never deletes a lockout entry, whatever `now` is. -/
theorem C4_amended_lazy_expiry :
    (∀ (st : SysState) (now : Int) (eid : String) (u : Int),
      lookupA eid st.locked_until = some u → u < now →
        (is_employee_locked st now eid).1 = false ∧
        lookupA eid (is_employee_locked st now eid).2.locked_until = none ∧
        lookupA eid (is_employee_locked st now eid).2.failed_attempts = none ∧
        ∀ now' : Int,
          (is_employee_locked (is_employee_locked st now eid).2 now' eid).1
            = false) ∧
    (∀ (cfg : Config) (st : SysState) (now : Int),
      (lookupA "unknown" st.locked_until).isSome = true →
        (lookupA "unknown"
          (register_failed_attempt cfg st now).locked_until).isSome = true) := by
  constructor
  · intro st now eid u hu hnow
    have hexp : (is_employee_locked st now eid)
        = (false, { st with
            locked_until := eraseA eid st.locked_until,
            failed_attempts := eraseA eid st.failed_attempts }) := by
      simp [is_employee_locked, hu, hnow]
    refine ⟨by rw [hexp], ?_, ?_, ?_⟩
    · rw [hexp]
      exact lookupA_eq_of_filter_ne eid st.locked_until
    · rw [hexp]
      exact lookupA_eq_of_filter_ne eid st.failed_attempts
    · intro now'
      rw [hexp]
      simp [is_employee_locked, lookupA_eraseA_self eid st.locked_until]
  · intro cfg st now hsome
    cases hm : cfg.MAX_FAILED_ATTEMPTS with
    | none => simpa [register_failed_attempt, hm] using hsome
    | some m =>
      cases hl : cfg.LOCKOUT_TIME with
      | none =>
        simp only [register_failed_attempt, hm, hl]
        split <;> simpa using hsome
      | some lt =>
        rw [register_failed_attempt_locked cfg m lt st now hm hl]
        split
        · rw [lookupA_insertA_self]
          rfl
        · exact hsome

/-- Witness for C4 (amended) at the expired lockout of `stFail2`. -/
theorem C4_amended_lazy_expiry_witness :
    ((is_employee_locked stFail2 400 "unknown").1 = false ∧
      lookupA "unknown" (is_employee_locked stFail2 400 "unknown").2.locked_until
        = none) ∧
    (lookupA "unknown"
      (register_failed_attempt cfgStrict stFail2 400).locked_until).isSome
        = true := by
  have h := C4_amended_lazy_expiry
  have ha := h.1 stFail2 400 "unknown" 301 (by decide) (by decide)
  exact ⟨⟨ha.1, ha.2.1⟩, h.2 cfgStrict stFail2 400 (by decide)⟩

/-- C8 counterexample: after a single failure recorded at t = 0, a read of
the "unknown" failure window at t = 4000 (such as the statistics display in
`main`, which does not prune) still observes the timestamp 0, which is more
than one hour old at that read. -/
theorem C8_counterexample :
    (0 : Int) ∈ (lookupA "unknown"
        (register_failed_attempt {} initState 0).failed_attempts).getD [] ∧
    ¬ ((4000 : Int) - 3600 < 0) := by
  decide

/-- C8 (amended): the one-hour bound holds at write time, not at read time:
immediately after any `register_failed_attempt` at time `now` (with
`MAX_FAILED_ATTEMPTS` configured), every timestamp in the stored "unknown"
window is strictly newer than `now` minus one hour; a later read without an
intervening failure can still observe older entries. -/
theorem C8_amended_window_fresh_on_write (cfg : Config) (m : Nat)
    (st : SysState) (now : Int) (hm : cfg.MAX_FAILED_ATTEMPTS = some m) :
    ∀ t ∈ (lookupA "unknown"
        (register_failed_attempt cfg st now).failed_attempts).getD [],
      now - 3600 < t := by
  intro t ht
  rw [register_failed_attempt_window cfg m st now hm, lookupA_insertA_self] at ht
  simp only [Option.getD_some, prunedWindow, List.mem_filter] at ht
  exact_mod_cast of_decide_eq_true ht.2

/-- Witness for C8 (amended) at the write of `stFail1`. -/
theorem C8_amended_window_fresh_on_write_witness :
    (0 : Int) ∈ (lookupA "unknown" stFail1.failed_attempts).getD [] ∧
    (0 : Int) - 3600 < 0 :=
  ⟨by decide,
    C8_amended_window_fresh_on_write cfgStrict 2 initState 0 rfl 0 (by decide)⟩

/-- Python truthiness of `self.encoding_cache`: not `None` and non-empty. -/
def cacheTruthy : Cache → Bool
  | none => false
  | some c => !c.isEmpty

/-- `len(self.encoding_cache)` (only consulted under the truthiness guard). -/
def cacheSize : Cache → Nat
  | none => 0
  | some c => c.length

/-- `encoding_key in self.encoding_cache` / `self.encoding_cache[key]`
(lines 357-359): fingerprint lookup returning `(name, employee_id)`. -/
def cacheLookup (fp : Int) : List (Int × String × String) → Option (String × String)
  | [] => none
  | (k, nm, eid) :: rest => if k = fp then some (nm, eid) else cacheLookup fp rest

/-- `self.encoding_cache[encoding_key] = (name, employee_id)` (line 386):
a Python dict assignment, one binding per key. -/
def cacheAssign (fp : Int) (nm eid : String) (c : List (Int × String × String)) :
    List (Int × String × String) :=
  (fp, nm, eid) :: c.filter (fun e => e.1 ≠ fp)

/-- The guarded cache-populate step of `process_recognition` (lines 383-386):
`if self.encoding_cache: self.encoding_cache[encoding_key] = (name, employee_id)`.
The guard is Python truthiness, so the assignment is skipped exactly when the
cache is disabled (`None`) or empty; no capacity bound is consulted. -/
def cache_insert_step (c : Cache) (fp : Int) (nm eid : String) : Cache :=
  if cacheTruthy c then some (cacheAssign fp nm eid (c.getD [])) else c

/-- C3: the insert step enforces no capacity bound: a cache already holding
`MAX_CACHE_SIZE = 2` entries accepts a third, distinct fingerprint (the
contents change and the size exceeds the bound); meanwhile an insert into
the empty enabled cache is a no-op (the truthiness guard), so along real
executions the cache can never be populated at all. -/
theorem C3_insert_unbounded :
    cache_insert_step (some [(1, "A", "a"), (2, "B", "b")]) 3 "C" "c"
      = some [(3, "C", "c"), (1, "A", "a"), (2, "B", "b")] ∧
    cacheSize (cache_insert_step (some [(1, "A", "a"), (2, "B", "b")]) 3 "C" "c")
      = 3 ∧
    ({ MAX_CACHE_SIZE := 2 : Config }).MAX_CACHE_SIZE < 3 ∧
    cache_insert_step (some []) 1 "A" "a" = some [] := by
  decide

/-- Outcome of one HTTP attempt inside `send_timecard_to_backend`: a 200
response echoing an entry type, a non-200 status, or a
`requests.RequestException`. -/
inductive AttemptOutcome
  | ok (entry : String)
  | badStatus
  | netError
deriving DecidableEq

/-- What `send_timecard_to_backend` produces, with call and sleep
accounting: `success`/`result` are the returned pair, `calls` the number of
`POST` attempts made, `sleepSeconds` the total `time.sleep` delay. -/
structure SendResult where
  success : Bool
  result : Option String
  calls : Nat
  sleepSeconds : Nat
deriving DecidableEq

/-- The retry loop of `send_timecard_to_backend` (lines 290-317), iterating
over the attempt indices of `range(max_retries)`.  A 200 response returns
immediately; a non-200 status logs and retries with no pause; a
`RequestException` sleeps 1 s when `attempt < max_retries - 1`; falling off
the loop returns `(False, None)`. -/
def send_loop (oracle : Nat → AttemptOutcome) (maxRetries : Nat) :
    List Nat → SendResult
  | [] => { success := false, result := none, calls := 0, sleepSeconds := 0 }
  | attempt :: rest =>
    match oracle attempt with
    | .ok entry =>
      { success := true, result := some entry, calls := 1, sleepSeconds := 0 }
    | .badStatus =>
      let r := send_loop oracle maxRetries rest
      { r with calls := r.calls + 1 }
    | .netError =>
      let pause : Nat := if attempt < maxRetries - 1 then 1 else 0
      let r := send_loop oracle maxRetries rest
      { r with calls := r.calls + 1, sleepSeconds := r.sleepSeconds + pause }

/-- `send_timecard_to_backend` (lines 286-318) with its hardcoded
`max_retries = 3`: the loop body runs for attempts 0, 1, 2. -/
def send_timecard_to_backend (oracle : Nat → AttemptOutcome) : SendResult :=
  send_loop oracle 3 [0, 1, 2]

/-- Whether an attempt outcome is a 200 response. -/
def isOkAttempt : AttemptOutcome → Bool
  | .ok _ => true
  | _ => false

/-- A store that answers a non-200 status on attempts 1-2 and succeeds on
attempt 3. -/
def storeBadStatusTwice : Nat → AttemptOutcome :=
  fun attempt => if attempt < 2 then .badStatus else .ok "entrada"

/-- C6 counterexample: a run whose first two attempts fail with non-200
statuses and whose third succeeds makes 3 store calls but injects 0 seconds
of delay, not the claimed 2: the 1-second pause exists only in the
`RequestException` branch, not between status-code failures. -/
theorem C6_counterexample :
    send_timecard_to_backend storeBadStatusTwice
      = { success := true, result := some "entrada", calls := 3,
          sleepSeconds := 0 } ∧
    (send_timecard_to_backend storeBadStatusTwice).sleepSeconds ≠ 2 := by
  decide

/-- C6 (amended): `send_timecard_to_backend` makes at most 3 attempts,
succeeds (echoing the store's entry type) exactly when some attempt returns
200, stops at the first success, returns `(False, None)` after 3 calls when
all attempts fail, and pauses 1 s after a failed attempt only when the
failure is a transport error and the attempt is not the last: two transport
errors before a third-attempt success give 3 calls and 2 s of delay, two
non-200 statuses give 3 calls and 0 s. -/
theorem C6_amended_retry_policy (oracle : Nat → AttemptOutcome) :
    (send_timecard_to_backend oracle).calls ≤ 3 ∧
    ((send_timecard_to_backend oracle).success = true ↔
      (isOkAttempt (oracle 0) || isOkAttempt (oracle 1)
        || isOkAttempt (oracle 2)) = true) ∧
    (∀ entry, oracle 0 = .ok entry →
      send_timecard_to_backend oracle
        = { success := true, result := some entry, calls := 1,
            sleepSeconds := 0 }) ∧
    ((∀ i, i < 3 → isOkAttempt (oracle i) = false) →
      (send_timecard_to_backend oracle).success = false ∧
      (send_timecard_to_backend oracle).result = none ∧
      (send_timecard_to_backend oracle).calls = 3) ∧
    (∀ entry, oracle 0 = .netError → oracle 1 = .netError →
      oracle 2 = .ok entry →
      send_timecard_to_backend oracle
        = { success := true, result := some entry, calls := 3,
            sleepSeconds := 2 }) ∧
    (∀ entry, oracle 0 = .badStatus → oracle 1 = .badStatus →
      oracle 2 = .ok entry →
      send_timecard_to_backend oracle
        = { success := true, result := some entry, calls := 3,
            sleepSeconds := 0 }) := by
  rcases h0 : oracle 0 with e0 | _ | _ <;>
    rcases h1 : oracle 1 with e1 | _ | _ <;>
      rcases h2 : oracle 2 with e2 | _ | _ <;>
        refine ⟨?_, ?_, ?_, ?_, ?_, ?_⟩ <;>
          simp_all [send_timecard_to_backend, send_loop, isOkAttempt]
  all_goals
    first
      | (refine ⟨0, ?_, ?_⟩ <;> first | omega | (simp [h0]; done))
      | (refine ⟨1, ?_, ?_⟩ <;> first | omega | (simp [h1]; done))
      | (refine ⟨2, ?_, ?_⟩ <;> first | omega | (simp [h2]; done))

/-- Witness for C6 (amended): the all-transport-error-then-success run. -/
theorem C6_amended_retry_policy_witness :
    send_timecard_to_backend (fun attempt =>
        if attempt < 2 then AttemptOutcome.netError
        else AttemptOutcome.ok "entrada")
      = { success := true, result := some "entrada", calls := 3,
          sleepSeconds := 2 } :=
  (C6_amended_retry_policy (fun attempt =>
      if attempt < 2 then AttemptOutcome.netError
      else AttemptOutcome.ok "entrada")).2.2.2.2.1 "entrada" rfl rfl rfl

/-- The external calls one observation of `process_recognition` makes, in
order: `compare_faces`, `face_distance`, `send_timecard_to_backend`,
`send_notification`. -/
inductive MatchEvent
  | compareCall | distCall | storeCall | notifyCall
deriving DecidableEq

/-- Instrumentation tag recording which branch of `process_recognition`
one observation terminated in (the branches of lines 356-423). -/
inductive Outcome
  | cacheHit
  | unresolved
  | outOfHours
  | cooldownWait (remaining : Int)
  | accepted
  | submitFailed
deriving DecidableEq

/-- The per-observation result: the label drawn on screen, its colour, the
updated controller state, the external calls made, and the branch tag. -/
structure ProcOut where
  name : String
  color : Nat × Nat × Nat
  st : SysState
  events : List MatchEvent
  outcome : Outcome
deriving DecidableEq

/-- `np.argmin` (line 374): index of the first minimum of a non-empty list
(0 on the empty list, which the source never reaches). -/
def argminIdx : List Int → Nat
  | [] => 0
  | [_] => 0
  | x :: y :: rest =>
    let j := argminIdx (y :: rest)
    if (y :: rest).getD j 0 < x then j + 1 else 0

/-- `is_work_hours` (lines 201-210): true when either bound is absent,
otherwise `WORK_START_TIME <= now.time() <= WORK_END_TIME`, with the
time-of-day in seconds. -/
def is_work_hours (cfg : Config) (tod : Int) : Bool :=
  match cfg.WORK_START_TIME, cfg.WORK_END_TIME with
  | some s, some e => decide (s ≤ tod) && decide (tod ≤ e)
  | _, _ => true

/-- Lines 379-418 of `process_recognition`: the branch taken once the
best-match candidate passed both thresholds, with `nm`/`eid` the candidate's
name and employee id and `backend` the `(success, entry_type)` pair the
external `send_timecard_to_backend` call would return.  It populates the
cache (truthiness-guarded), consults `can_register_again`, then either flags
out-of-hours, or submits and on success marks the acceptance and possibly
notifies, or reports the remaining cooldown. -/
def process_resolved (cfg : Config) (fp : Int) (nm eid : String)
    (backend : Bool × Option String) (st : SysState) (now : Int) : ProcOut :=
  let st1 := { st with
    encoding_cache := cache_insert_step st.encoding_cache fp nm eid }
  let reg := can_register_again cfg st1 now eid
  if reg.1 then
    if !is_work_hours cfg (now % 86400) && !cfg.ALLOW_AFTER_HOURS then
      { name := nm ++ " (Fora do horario)", color := (0, 255, 255), st := reg.2,
        events := [.compareCall, .distCall], outcome := .outOfHours }
    else
      if backend.1 then
        let st3 := markAccepted reg.2 eid now
        if cfg.NOTIFY_ON_FIRST_ENTRY && backend.2 == some "entrada" then
          { name := nm, color := cfg.COLOR_RECOGNIZED, st := st3,
            events := [.compareCall, .distCall, .storeCall, .notifyCall],
            outcome := .accepted }
        else
          { name := nm, color := cfg.COLOR_RECOGNIZED, st := st3,
            events := [.compareCall, .distCall, .storeCall],
            outcome := .accepted }
      else
        { name := nm, color := cfg.COLOR_RECOGNIZED, st := reg.2,
          events := [.compareCall, .distCall, .storeCall],
          outcome := .submitFailed }
  else
    let remaining := cfg.RECOGNITION_COOLDOWN -
      (now - (lookupA eid reg.2.last_recognition).getD now)
    { name := nm ++ " (Aguarde " ++ toString remaining ++ "s)",
      color := cfg.COLOR_COOLDOWN, st := reg.2,
      events := [.compareCall, .distCall], outcome := .cooldownWait remaining }

/-- Lines 364-378: the full gallery comparison.  `gallery` pairs
`known_names` with `known_ids`; `matchesL` and `dists` are the outputs of the
external `compare_faces` / `face_distance` calls for this encoding. -/
def process_match (cfg : Config) (gallery : List (String × String))
    (matchesL : List Bool) (dists : List Int) (fp : Int)
    (backend : Bool × Option String) (st : SysState) (now : Int) : ProcOut :=
  if 0 < dists.length then
    let best := argminIdx dists
    if matchesL.getD best false
        && decide (dists.getD best 0 < cfg.FACE_RECOGNITION_TOLERANCE) then
      let cand := gallery.getD best ("", "")
      process_resolved cfg fp cand.1 cand.2 backend st now
    else
      { name := "Desconhecido", color := cfg.COLOR_UNKNOWN, st := st,
        events := [.compareCall, .distCall], outcome := .unresolved }
  else
    { name := "Desconhecido", color := cfg.COLOR_UNKNOWN, st := st,
      events := [.compareCall, .distCall], outcome := .unresolved }

/-- Lines 420-421: after the per-encoding block, a face whose final label is
still exactly "Desconhecido" records a failed attempt. -/
def finalize (cfg : Config) (now : Int) (r : ProcOut) : ProcOut :=
  if r.name = "Desconhecido" then
    { r with st := register_failed_attempt cfg r.st now }
  else r

/-- One iteration of the `for face_encoding in face_encodings` loop of
`process_recognition` (lines 349-423): nothing happens without a gallery;
the cache is consulted only while truthy and strictly below
`MAX_CACHE_SIZE` (a hit bypasses everything, including the failed-attempt
check); otherwise the full comparison runs and the final label decides
whether a failed attempt is recorded. -/
def process_one (cfg : Config) (gallery : List (String × String))
    (matchesL : List Bool) (dists : List Int) (fp : Int)
    (backend : Bool × Option String) (st : SysState) (now : Int) : ProcOut :=
  if 0 < gallery.length then
    if cacheTruthy st.encoding_cache
        && decide (cacheSize st.encoding_cache < cfg.MAX_CACHE_SIZE) then
      match cacheLookup fp (st.encoding_cache.getD []) with
      | some hit =>
        { name := hit.1, color := cfg.COLOR_RECOGNIZED, st := st,
          events := [], outcome := .cacheHit }
      | none =>
        finalize cfg now (process_match cfg gallery matchesL dists fp backend st now)
    else
      finalize cfg now (process_match cfg gallery matchesL dists fp backend st now)
  else
    finalize cfg now
      { name := "Desconhecido", color := cfg.COLOR_UNKNOWN, st := st,
        events := [], outcome := .unresolved }

/-- State of the basic `FacialRecognitionTimeCard`: its cooldown ledger. -/
structure BasicState where
  last_recognition : List (String × Int) := []
deriving DecidableEq

/-- `can_register_again` of the basic system (timecard lines 127-133):
cooldown only, no lockout. -/
def can_register_again_basic (cooldown : Int) (st : BasicState) (now : Int)
    (eid : String) : Bool :=
  match lookupA eid st.last_recognition with
  | some t => decide (cooldown ≤ now - t)
  | none => true

/-- Per-observation result of the basic loop. -/
structure BasicOut where
  name : String
  st : BasicState
  events : List MatchEvent
deriving DecidableEq

/-- One iteration of the per-encoding loop of the basic `recognize_faces`
(timecard lines 158-182): `compare_faces` and `face_distance` are invoked
unconditionally - also on an empty gallery, where `face_distance` returns
the empty array - the argmin branch is guarded by `len(face_distances) > 0`,
and the tolerance is the literal 0.6 (scaled: 600).  `if employee_id and
...` is the truthiness test on the id string. -/
def process_one_basic (cooldown : Int) (gallery : List (String × String))
    (matchesL : List Bool) (dists : List Int) (backend : Bool × Option String)
    (st : BasicState) (now : Int) : BasicOut :=
  let events := [MatchEvent.compareCall, MatchEvent.distCall]
  if 0 < dists.length then
    let best := argminIdx dists
    if matchesL.getD best false && decide (dists.getD best 0 < 600) then
      let cand := gallery.getD best ("", "")
      if cand.2 ≠ "" && can_register_again_basic cooldown st now cand.2 then
        if backend.1 then
          { name := cand.1,
            st := { last_recognition := insertA cand.2 now st.last_recognition },
            events := events ++ [MatchEvent.storeCall] }
        else
          { name := cand.1, st := st,
            events := events ++ [MatchEvent.storeCall] }
      else
        { name := cand.1, st := st, events := events }
    else
      { name := "Desconhecido", st := st, events := events }
  else
    { name := "Desconhecido", st := st, events := events }

/-- Helper: `register_failed_attempt` never touches the cooldown ledger. -/
theorem register_failed_attempt_last (cfg : Config) (st : SysState)
    (now : Int) :
    (register_failed_attempt cfg st now).last_recognition
      = st.last_recognition := by
  cases hm : cfg.MAX_FAILED_ATTEMPTS with
  | none => simp [register_failed_attempt, hm]
  | some m =>
    cases hl : cfg.LOCKOUT_TIME <;>
      simp only [register_failed_attempt, hm, hl] <;> split <;> rfl

/-- Helper: the final "Desconhecido" check only records a failed attempt; it
keeps the label, the events, the branch tag and the cooldown ledger. -/
theorem finalize_preserves (cfg : Config) (now : Int) (r : ProcOut) :
    (finalize cfg now r).name = r.name ∧
    (finalize cfg now r).events = r.events ∧
    (finalize cfg now r).outcome = r.outcome ∧
    (finalize cfg now r).st.last_recognition = r.st.last_recognition := by
  unfold finalize
  split
  · exact ⟨rfl, rfl, rfl, register_failed_attempt_last cfg r.st now⟩
  · exact ⟨rfl, rfl, rfl, rfl⟩

/-- Helper: the full-comparison path always performs both matcher calls and
never produces a cache hit. -/
theorem process_match_base (cfg : Config) (gallery : List (String × String))
    (matchesL : List Bool) (dists : List Int) (fp : Int)
    (backend : Bool × Option String) (st : SysState) (now : Int) :
    MatchEvent.compareCall
      ∈ (process_match cfg gallery matchesL dists fp backend st now).events ∧
    MatchEvent.distCall
      ∈ (process_match cfg gallery matchesL dists fp backend st now).events ∧
    (process_match cfg gallery matchesL dists fp backend st now).outcome
      ≠ Outcome.cacheHit := by
  simp only [process_match, process_resolved]
  repeat' split
  all_goals simp

/-- Helper: with the cache guard false, `process_one` is the finalized full
comparison. -/
theorem process_one_no_cache (cfg : Config) (gallery : List (String × String))
    (matchesL : List Bool) (dists : List Int) (fp : Int)
    (backend : Bool × Option String) (st : SysState) (now : Int)
    (hg : 0 < gallery.length)
    (hguard : (cacheTruthy st.encoding_cache
      && decide (cacheSize st.encoding_cache < cfg.MAX_CACHE_SIZE)) = false) :
    process_one cfg gallery matchesL dists fp backend st now
      = finalize cfg now
          (process_match cfg gallery matchesL dists fp backend st now) := by
  simp [process_one, hg, hguard]

/-- C10: once the cache holds `MAX_CACHE_SIZE` or more entries the lookup is
bypassed entirely: even for a fingerprint present in the cache the
controller performs the full gallery comparison (both matcher calls run and
no cache-hit branch is taken); conversely, a cache-hit outcome is only
possible while the cache size is strictly below `MAX_CACHE_SIZE`. -/
theorem C10_cache_bypass_at_capacity (cfg : Config)
    (gallery : List (String × String)) (matchesL : List Bool)
    (dists : List Int) (fp : Int) (backend : Bool × Option String)
    (st : SysState) (now : Int) :
    (cfg.MAX_CACHE_SIZE ≤ cacheSize st.encoding_cache → 0 < gallery.length →
      (process_one cfg gallery matchesL dists fp backend st now).outcome
          ≠ Outcome.cacheHit ∧
      MatchEvent.compareCall
        ∈ (process_one cfg gallery matchesL dists fp backend st now).events ∧
      MatchEvent.distCall
        ∈ (process_one cfg gallery matchesL dists fp backend st now).events) ∧
    ((process_one cfg gallery matchesL dists fp backend st now).outcome
        = Outcome.cacheHit →
      cacheSize st.encoding_cache < cfg.MAX_CACHE_SIZE) := by
  have hm := process_match_base cfg gallery matchesL dists fp backend st now
  have hf := finalize_preserves cfg now
    (process_match cfg gallery matchesL dists fp backend st now)
  constructor
  · intro hsize hg
    have hguard : (cacheTruthy st.encoding_cache
        && decide (cacheSize st.encoding_cache < cfg.MAX_CACHE_SIZE)) = false := by
      simp [Nat.not_lt.mpr hsize]
    rw [process_one_no_cache cfg gallery matchesL dists fp backend st now hg hguard]
    rw [hf.2.1, hf.2.2.1]
    exact ⟨hm.2.2, hm.1, hm.2.1⟩
  · intro hhit
    by_cases hguard : (cacheTruthy st.encoding_cache
        && decide (cacheSize st.encoding_cache < cfg.MAX_CACHE_SIZE)) = true
    · exact of_decide_eq_true (Bool.and_elim_right hguard)
    · exfalso
      have hguard' := Bool.eq_false_iff.mpr hguard
      by_cases hg : 0 < gallery.length
      · rw [process_one_no_cache cfg gallery matchesL dists fp backend st now
          hg hguard', hf.2.2.1] at hhit
        exact hm.2.2 hhit
      · have : (process_one cfg gallery matchesL dists fp backend st now).outcome
            = Outcome.unresolved := by
          simp [process_one, hg, finalize]
        rw [this] at hhit
        exact Outcome.noConfusion hhit

/-- A configuration whose cache capacity is 2. -/
def cfgSmallCache : Config := { MAX_CACHE_SIZE := 2 }

/-- A state whose cache is at capacity 2, holding fingerprints 1 and 2. -/
def stFullCache : SysState :=
  { encoding_cache := some [(1, "A", "a"), (2, "B", "b")] }

/-- Witness for C10: fingerprint 1 is in the full cache, yet the observation
runs the full comparison and no cache hit occurs. -/
theorem C10_cache_bypass_at_capacity_witness :
    (process_one cfgSmallCache [("A", "a")] [false] [700] 1 (false, none)
        stFullCache 0).outcome ≠ Outcome.cacheHit ∧
    MatchEvent.compareCall
      ∈ (process_one cfgSmallCache [("A", "a")] [false] [700] 1 (false, none)
        stFullCache 0).events := by
  have h := (C10_cache_bypass_at_capacity cfgSmallCache [("A", "a")] [false]
    [700] 1 (false, none) stFullCache 0).1 (by decide) (by decide)
  exact ⟨h.1, h.2.1⟩

/-- C7 counterexample: in the basic `recognize_faces` loop the
`face_distance` call happens even with an empty gallery (the call is
unconditional; only the argmin branch is guarded), so the observation
resolves to "Desconhecido" but the distance function IS invoked,
contradicting the claim for the cited `facial_recognition_timecard.py`
code. -/
theorem C7_counterexample :
    MatchEvent.distCall
      ∈ (process_one_basic 10 [] [] [] (false, none) {} 0).events ∧
    (process_one_basic 10 [] [] [] (false, none) {} 0).name
      = "Desconhecido" := by
  decide

/-- C7 (amended): with an empty gallery the advanced controller
short-circuits before any matcher call - the observation resolves to
"Desconhecido" with no compare/distance invocation - while the basic loop
invokes both matcher functions on the empty gallery but guards the argmin
with the emptiness test on the distances, so its observation still resolves
to "Desconhecido" and the empty-argmin fault branch stays unreachable. -/
theorem C7_amended_empty_gallery (cfg : Config) (matchesL : List Bool)
    (dists : List Int) (fp : Int) (backend : Bool × Option String)
    (st : SysState) (now : Int) (cooldown : Int) (bmatches : List Bool)
    (bst : BasicState) :
    (process_one cfg [] matchesL dists fp backend st now).events = [] ∧
    (process_one cfg [] matchesL dists fp backend st now).name
      = "Desconhecido" ∧
    (process_one_basic cooldown [] bmatches [] backend bst now).events
      = [MatchEvent.compareCall, MatchEvent.distCall] ∧
    (process_one_basic cooldown [] bmatches [] backend bst now).name
      = "Desconhecido" := by
  refine ⟨?_, ?_, ?_, ?_⟩ <;>
    simp [process_one, process_one_basic, finalize]

/-- Helper: populating the cache through the truthiness-guarded insert is a
no-op on the reachable empty-enabled cache. -/
theorem cache_insert_step_empty (st : SysState) (fp : Int) (nm eid : String)
    (hcache : st.encoding_cache = some []) :
    { st with encoding_cache := cache_insert_step st.encoding_cache fp nm eid }
      = st := by
  cases st with
  | mk lr fa lu ec =>
    cases hcache
    rfl

/-- Helper: with the empty-enabled cache and a candidate passing both the
match and the distance threshold, one observation is the finalized resolved
branch. -/
theorem process_one_resolved (cfg : Config) (gallery : List (String × String))
    (matchesL : List Bool) (dists : List Int) (fp : Int)
    (backend : Bool × Option String) (st : SysState) (now : Int)
    (nm eid : String)
    (hg : 0 < gallery.length)
    (hcache : st.encoding_cache = some [])
    (hd : 0 < dists.length)
    (hmatch : matchesL.getD (argminIdx dists) false = true)
    (htol : dists.getD (argminIdx dists) 0 < cfg.FACE_RECOGNITION_TOLERANCE)
    (hcand : gallery.getD (argminIdx dists) ("", "") = (nm, eid)) :
    process_one cfg gallery matchesL dists fp backend st now
      = finalize cfg now (process_resolved cfg fp nm eid backend st now) := by
  have hguard : (cacheTruthy st.encoding_cache
      && decide (cacheSize st.encoding_cache < cfg.MAX_CACHE_SIZE)) = false := by
    rw [hcache]
    rfl
  rw [process_one_no_cache cfg gallery matchesL dists fp backend st now hg hguard]
  congr 1
  rw [List.getD_eq_getElem?_getD] at hmatch htol hcand
  simp [process_match, hd, hmatch, htol, hcand]

/-- The advanced configuration with after-hours registration disallowed
(work window 07:00-19:00 in seconds of day). -/
def cfgNoAfterHours : Config := { ALLOW_AFTER_HOURS := false }

/-- A state whose identity "e1" was accepted at 71995, five seconds before
the observation at 72000 (20:00:00). -/
def stCooldown5 : SysState := { last_recognition := [("e1", 71995)] }

/-- C5 counterexample: at 20:00 (out of the 07:00-19:00 window, after-hours
disallowed) an observation resolved to "e1", which is also within its
cooldown window, terminates in the cooldown branch - not out-of-hours - so
the cooldown check runs before the work-window check, contradicting the
claimed order. -/
theorem C5_counterexample :
    is_work_hours cfgNoAfterHours (72000 % 86400) = false ∧
    cfgNoAfterHours.ALLOW_AFTER_HOURS = false ∧
    (process_one cfgNoAfterHours [("E1", "e1")] [true] [300] 0
        (true, some "entrada") stCooldown5 72000).outcome
      = Outcome.cooldownWait 5 ∧
    (process_one cfgNoAfterHours [("E1", "e1")] [true] [300] 0
        (true, some "entrada") stCooldown5 72000).outcome
      ≠ Outcome.outOfHours ∧
    MatchEvent.storeCall
      ∉ (process_one cfgNoAfterHours [("E1", "e1")] [true] [300] 0
        (true, some "entrada") stCooldown5 72000).events := by
  decide

/-- C5 (amended): the cooldown gate (`can_register_again`) runs before the
work-window gate.  For an observation resolved to a known identity (empty
enabled cache, no lockout entry): (a) if the identity is out of cooldown and
the time is outside work hours with `ALLOW_AFTER_HOURS` false, the
observation terminates out-of-hours, with no store call and no cooldown
update; (b) if the identity is within its cooldown window, the observation
terminates in the cooldown branch - not out-of-hours - with no store call,
whatever the work-window situation is. -/
theorem C5_amended_cooldown_before_hours (cfg : Config)
    (gallery : List (String × String)) (matchesL : List Bool)
    (dists : List Int) (fp : Int) (backend : Bool × Option String)
    (st : SysState) (now : Int) (nm eid : String)
    (hg : 0 < gallery.length)
    (hcache : st.encoding_cache = some [])
    (hd : 0 < dists.length)
    (hmatch : matchesL.getD (argminIdx dists) false = true)
    (htol : dists.getD (argminIdx dists) 0 < cfg.FACE_RECOGNITION_TOLERANCE)
    (hcand : gallery.getD (argminIdx dists) ("", "") = (nm, eid))
    (hlock : lookupA eid st.locked_until = none) :
    ((∀ t, lookupA eid st.last_recognition = some t →
        cfg.RECOGNITION_COOLDOWN ≤ now - t) →
      is_work_hours cfg (now % 86400) = false →
      cfg.ALLOW_AFTER_HOURS = false →
      (process_one cfg gallery matchesL dists fp backend st now).outcome
          = Outcome.outOfHours ∧
      MatchEvent.storeCall
        ∉ (process_one cfg gallery matchesL dists fp backend st now).events ∧
      (process_one cfg gallery matchesL dists fp backend st now).st.last_recognition
          = st.last_recognition) ∧
    (∀ t, lookupA eid st.last_recognition = some t →
      now - t < cfg.RECOGNITION_COOLDOWN →
      (process_one cfg gallery matchesL dists fp backend st now).outcome
          = Outcome.cooldownWait (cfg.RECOGNITION_COOLDOWN - (now - t)) ∧
      MatchEvent.storeCall
        ∉ (process_one cfg gallery matchesL dists fp backend st now).events) := by
  have hone := process_one_resolved cfg gallery matchesL dists fp backend st now
    nm eid hg hcache hd hmatch htol hcand
  have hst1 := cache_insert_step_empty st fp nm eid hcache
  constructor
  · intro hcool hhours hallow
    have hreg : can_register_again cfg
        { st with encoding_cache := cache_insert_step st.encoding_cache fp nm eid }
        now eid = (true, st) := by
      rw [hst1]
      cases hlr : lookupA eid st.last_recognition with
      | none => simp [can_register_again, is_employee_locked, hlock, hlr]
      | some t =>
        have hc := hcool t hlr
        simp [can_register_again, is_employee_locked, hlock, hlr, hc]
    have hres : process_resolved cfg fp nm eid backend st now
        = { name := nm ++ " (Fora do horario)", color := (0, 255, 255),
            st := st, events := [.compareCall, .distCall],
            outcome := .outOfHours } := by
      simp only [process_resolved, hreg]
      simp [hhours, hallow]
    rw [hone, hres]
    have hf := finalize_preserves cfg now
      { name := nm ++ " (Fora do horario)", color := (0, 255, 255),
        st := st, events := [.compareCall, .distCall],
        outcome := .outOfHours }
    rw [hf.2.1, hf.2.2.1, hf.2.2.2]
    refine ⟨rfl, ?_, rfl⟩
    simp
  · intro t hlr hlt
    have hreg : can_register_again cfg
        { st with encoding_cache := cache_insert_step st.encoding_cache fp nm eid }
        now eid = (false, st) := by
      rw [hst1]
      simp [can_register_again, is_employee_locked, hlock, hlr] <;> omega
    have hres : process_resolved cfg fp nm eid backend st now
        = { name := nm ++ " (Aguarde "
              ++ toString (cfg.RECOGNITION_COOLDOWN - (now - t)) ++ "s)",
            color := cfg.COLOR_COOLDOWN, st := st,
            events := [.compareCall, .distCall],
            outcome := .cooldownWait (cfg.RECOGNITION_COOLDOWN - (now - t)) } := by
      simp only [process_resolved, hreg]
      simp [hlr]
    rw [hone, hres]
    have hf := finalize_preserves cfg now
      { name := nm ++ " (Aguarde "
          ++ toString (cfg.RECOGNITION_COOLDOWN - (now - t)) ++ "s)",
        color := cfg.COLOR_COOLDOWN, st := st,
        events := [.compareCall, .distCall],
        outcome := .cooldownWait (cfg.RECOGNITION_COOLDOWN - (now - t)) }
    rw [hf.2.1, hf.2.2.1]
    refine ⟨rfl, ?_⟩
    simp

/-- Witness for C5 (amended): part (a) at the fresh state, part (b) at the
in-cooldown state `stCooldown5`, both at 20:00. -/
theorem C5_amended_cooldown_before_hours_witness :
    ((process_one cfgNoAfterHours [("E1", "e1")] [true] [300] 0
        (true, some "entrada") initState 72000).outcome
      = Outcome.outOfHours) ∧
    ((process_one cfgNoAfterHours [("E1", "e1")] [true] [300] 0
        (true, some "entrada") stCooldown5 72000).outcome
      = Outcome.cooldownWait 5) := by
  constructor
  · exact ((C5_amended_cooldown_before_hours cfgNoAfterHours [("E1", "e1")]
      [true] [300] 0 (true, some "entrada") initState 72000 "E1" "e1"
      (by decide) rfl (by decide) (by decide) (by decide) rfl rfl).1
      (fun t ht => nomatch ht) (by decide) rfl).1
  · have h := ((C5_amended_cooldown_before_hours cfgNoAfterHours [("E1", "e1")]
      [true] [300] 0 (true, some "entrada") stCooldown5 72000 "E1" "e1"
      (by decide) rfl (by decide) (by decide) (by decide) rfl rfl).2
      71995 rfl (by decide)).1
    simpa using h

/-- C9: while the system-wide "unknown" scope is locked (an active deadline
`u` with `now ≤ u`), an observation resolved to a known identity - which
never carries its own lockout entry - still reaches the submission call,
provided its cooldown has elapsed and the work window or the after-hours
override allows it: the lockout degrades the display but never blocks
submission. -/
theorem C9_lockout_does_not_block (cfg : Config)
    (gallery : List (String × String)) (matchesL : List Bool)
    (dists : List Int) (fp : Int) (backend : Bool × Option String)
    (st : SysState) (now : Int) (nm eid : String) (u : Int)
    (hg : 0 < gallery.length)
    (hcache : st.encoding_cache = some [])
    (hd : 0 < dists.length)
    (hmatch : matchesL.getD (argminIdx dists) false = true)
    (htol : dists.getD (argminIdx dists) 0 < cfg.FACE_RECOGNITION_TOLERANCE)
    (hcand : gallery.getD (argminIdx dists) ("", "") = (nm, eid))
    (hunk : lookupA "unknown" st.locked_until = some u)
    (hactive : now ≤ u)
    (hlock : lookupA eid st.locked_until = none)
    (hcool : ∀ t, lookupA eid st.last_recognition = some t →
        cfg.RECOGNITION_COOLDOWN ≤ now - t)
    (hhours : is_work_hours cfg (now % 86400) = true
        ∨ cfg.ALLOW_AFTER_HOURS = true) :
    MatchEvent.storeCall
      ∈ (process_one cfg gallery matchesL dists fp backend st now).events ∧
    ((process_one cfg gallery matchesL dists fp backend st now).outcome
        = Outcome.accepted ∨
      (process_one cfg gallery matchesL dists fp backend st now).outcome
        = Outcome.submitFailed) := by
  have hone := process_one_resolved cfg gallery matchesL dists fp backend st now
    nm eid hg hcache hd hmatch htol hcand
  have hst1 := cache_insert_step_empty st fp nm eid hcache
  have hreg : can_register_again cfg
      { st with encoding_cache := cache_insert_step st.encoding_cache fp nm eid }
      now eid = (true, st) := by
    rw [hst1]
    cases hlr : lookupA eid st.last_recognition with
    | none => simp [can_register_again, is_employee_locked, hlock, hlr]
    | some t =>
      have hc := hcool t hlr
      simp [can_register_again, is_employee_locked, hlock, hlr, hc]
  have hcond : (!is_work_hours cfg (now % 86400) && !cfg.ALLOW_AFTER_HOURS)
      = false := by
    rcases hhours with h | h <;> simp [h]
  have hf := finalize_preserves cfg now
    (process_resolved cfg fp nm eid backend st now)
  rw [hone, hf.2.1, hf.2.2.1]
  simp only [process_resolved, hreg, hcond]
  cases hb : backend.1 <;> simp [hb] <;> split <;> simp

/-- A state with an active system-wide "unknown" lockout until t = 1000. -/
def stUnknownLocked : SysState := { locked_until := [("unknown", 1000)] }

/-- Witness for C9: with the system locked until 1000, an observation at 500
resolved to "e1" still reaches the store call and is accepted. -/
theorem C9_lockout_does_not_block_witness :
    MatchEvent.storeCall
      ∈ (process_one {} [("E1", "e1")] [true] [300] 0 (true, some "saida")
        stUnknownLocked 500).events ∧
    ((process_one {} [("E1", "e1")] [true] [300] 0 (true, some "saida")
        stUnknownLocked 500).outcome = Outcome.accepted ∨
      (process_one {} [("E1", "e1")] [true] [300] 0 (true, some "saida")
        stUnknownLocked 500).outcome = Outcome.submitFailed) := by
  have hcool : ∀ t, lookupA "e1" stUnknownLocked.last_recognition = some t →
      ({} : Config).RECOGNITION_COOLDOWN ≤ 500 - t := by
    intro t ht
    simp [stUnknownLocked, lookupA] at ht
  exact C9_lockout_does_not_block {} [("E1", "e1")] [true] [300] 0
    (true, some "saida") stUnknownLocked 500 "E1" "e1" 1000 (by decide) rfl
    (by decide) (by decide) (by decide) rfl (by decide) (by decide)
    (by decide) hcool (Or.inr rfl)

end CameraTimeCard
